import Mathlib

/-!
# Verification of the rpc-scope message correlation and RPC client layer

Shallow embedding of `message_manager.py` (the response correlator),
`rpc_client.py` (the ZeroMQ RPC client and proxy-namespace builder),
and the Leica key-derivation strategy.  Python dicts are modelled as
insertion-ordered association lists (matching CPython dict semantics),
exceptions as explicit error results, and the side-effecting callback
invocations as event lists.
-/

namespace MessageManagerModel

/-- Callbacks are identified by numeric ids; invoking one is recorded as an
event rather than executed. -/
abbrev Cb := Nat

/-- Insertion-ordered association list lookup (CPython dict `k in d` / `d[k]`). -/
def lookupKey {α β : Type} [DecidableEq α] : List (α × β) → α → Option β
  | [], _ => none
  | (k, v) :: rest, key => if k = key then some v else lookupKey rest key

/-- CPython `d.pop(k)`: remove the entry for `k`, keeping the order of the rest. -/
def eraseKey {α β : Type} [DecidableEq α] : List (α × β) → α → List (α × β)
  | [], _ => []
  | (k, v) :: rest, key => if k = key then rest else (k, v) :: eraseKey rest key

/-- CPython `d[k] = v`: replace in place if present, else append at the end. -/
def setKey {α β : Type} [DecidableEq α] : List (α × β) → α → β → List (α × β)
  | [], key, v => [(key, v)]
  | (k, w) :: rest, key, v =>
      if k = key then (k, v) :: rest else (k, w) :: setKey rest key v

/-- CPython `defaultdict(list)`: `d[k].append(x)` appends to the existing list
or creates a fresh singleton entry at the end. -/
def appendKey {α β : Type} [DecidableEq α] : List (α × List β) → α → β → List (α × List β)
  | [], key, x => [(key, [x])]
  | (k, xs) :: rest, key, x =>
      if k = key then (k, xs ++ [x]) :: rest else (k, xs) :: appendKey rest key x

/-- CPython `defaultdict` read access `d[k]` used only for its insertion side
effect: add an empty entry at the end when the key is missing. -/
def ensureKey {α β : Type} [DecidableEq α] (d : List (α × List β)) (k : α) :
    List (α × List β) :=
  match lookupKey d k with
  | some _ => d
  | none => d ++ [(k, [])]

/-- The two pending-callback tables of `MessageManager.__init__`:
`pending_grouped_responses` maps a response key to `(callback, onetime)` pairs,
`pending_standalone_responses` maps a response key to bare callbacks. -/
structure MMState where
  grouped : List (String × List (Cb × Bool))
  standalone : List (String × List Cb)
  deriving Repr, DecidableEq

/-- Python exceptions the embedded code can raise. -/
inductive MMError
  /-- `self.pending_responses` does not exist (`MessageManager.run`, the
  non-onetime re-queue line). -/
  | attributeError
  /-- unpacking `callback, *remaining_callbacks` from an empty list. -/
  | valueError
  /-- `assert(onetime or coalesce)` failed in `send_message`. -/
  | assertionError
  deriving Repr, DecidableEq

/-- Observable effects of the receive loop. -/
inductive Event
  | invoke (cb : Cb) (response : String)
  | unexpected (response key : String)
  deriving Repr, DecidableEq

/-- Result of handling one received response: either the loop survives with a
new state, or an exception escapes `run` and kills the thread.  In both cases
the callback invocations that already happened are recorded. -/
inductive StepResult
  | ok (st : MMState) (events : List Event)
  | crashed (err : MMError) (events : List Event)
  deriving Repr, DecidableEq

/-- The `for callback, onetime in callbacks` loop of `MessageManager.run`:
each callback is invoked with the response; a callback with `onetime` false
then evaluates `self.pending_responses[response_key]`, an attribute that does
not exist, raising `AttributeError` after the invocation. -/
def fireGrouped (response : String) : List (Cb × Bool) → List Event × Option MMError
  | [] => ([], none)
  | (cb, onetime) :: rest =>
      if onetime then
        let (evs, e) := fireGrouped response rest
        (Event.invoke cb response :: evs, e)
      else
        ([Event.invoke cb response], some MMError.attributeError)

/-- One iteration of the `while self.running` body of `MessageManager.run`,
for a received `response`, with `keyOf` standing for
`self._generate_response_key`.  Checks the grouped table, then the standalone
table, then falls back to `self._handle_unexpected_response`. -/
def handleResponse (keyOf : String → String) (st : MMState) (response : String) :
    StepResult :=
  let key := keyOf response
  -- grouped branch
  let groupedStep : MMState × List Event × Option MMError :=
    match lookupKey st.grouped key with
    | some callbacks =>
        let st1 : MMState := { st with grouped := eraseKey st.grouped key }
        let (evs, err) := fireGrouped response callbacks
        (st1, evs, err)
    | none => (st, [], none)
  match groupedStep with
  | (_, evs1, some err) => StepResult.crashed err evs1
  | (st1, evs1, none) =>
      let handledGrouped := (lookupKey st.grouped key).isSome
      -- standalone branch
      match lookupKey st1.standalone key with
      | some [] => StepResult.crashed MMError.valueError evs1
      | some (callback :: remaining) =>
          let st2 : MMState := { st1 with standalone := eraseKey st1.standalone key }
          let evs2 := evs1 ++ [Event.invoke callback response]
          -- the re-queue line stores under `response`, not `response_key`
          let st3 : MMState :=
            if remaining.isEmpty then st2
            else { st2 with standalone := setKey st2.standalone response remaining }
          StepResult.ok st3 evs2
      | none =>
          if handledGrouped then StepResult.ok st1 evs1
          else StepResult.ok st1 (evs1 ++ [Event.unexpected response key])

/-- Outcome of running the receive loop over a finite list of incoming
responses (the loop itself blocks forever; we observe any finite prefix). -/
inductive RunResult
  | finished (st : MMState) (events : List Event)
  | crashed (err : MMError) (events : List Event)
  deriving Repr, DecidableEq

/-- The receive loop of `MessageManager.run` over a finite trace of received
responses.  An uncaught exception terminates the thread. -/
def runLoop (keyOf : String → String) (st : MMState) : List String → RunResult
  | [] => RunResult.finished st []
  | r :: rest =>
      match handleResponse keyOf st r with
      | StepResult.ok st' evs =>
          match runLoop keyOf st' rest with
          | RunResult.finished st'' evs' => RunResult.finished st'' (evs ++ evs')
          | RunResult.crashed e evs' => RunResult.crashed e (evs ++ evs')
      | StepResult.crashed e evs => RunResult.crashed e evs

/-- `MessageManager.send_message`: registers the callback (grouped if
`coalesce`, standalone otherwise) after `assert(onetime or coalesce)`, then
sends the message; returns the new state and the message handed to
`self._send_message`. -/
def send_message (st : MMState) (message : String) (response_key : Option String)
    (response_callback : Option Cb) (onetime coalesce : Bool) :
    Except MMError (MMState × List String) :=
  match response_key, response_callback with
  | some key, some cb =>
      if onetime || coalesce then
        let st' :=
          if coalesce then { st with grouped := appendKey st.grouped key (cb, onetime) }
          else { st with standalone := appendKey st.standalone key cb }
        Except.ok (st', [message])
      else Except.error MMError.assertionError
  | _, _ => Except.ok (st, [message])

/-- Prefix a batch of events onto the events of a run outcome. -/
def prependEvents (evs : List Event) : RunResult → RunResult
  | RunResult.finished st evs' => RunResult.finished st (evs ++ evs')
  | RunResult.crashed e evs' => RunResult.crashed e (evs ++ evs')

/-- `LeicaMessageManager._generate_response_key`: a response starting with the
sentinel `'$'` keys on its first six characters (`response[:6]`); any other
response keys on `response[:2] + response[3:5]`, skipping the error-code
character.  Indexing `response[0]` on an empty response raises `IndexError`,
modelled as `none`. -/
def leicaGenerateResponseKey (response : List Char) : Option (List Char) :=
  match response with
  | [] => none
  | c :: _ =>
      if c = '$' then some (response.take 6)
      else some (response.take 2 ++ (response.drop 3).take 2)

end MessageManagerModel

namespace RPCClientModel

/-- One iteration of the polling loop in `ZMQClient._receive_reply`, as seen
from the environment: the value of `time.time()` read at the top of the
iteration, the `self.heartbeat_error` flag at that moment, and whether
`self.socket.poll(500)` reported data ready. -/
structure PollObs where
  now : Nat
  heartbeatError : Bool
  ready : Bool
  deriving Repr, DecidableEq

/-- How `_receive_reply` leaves its polling loop. -/
inductive ReplyOutcome
  /-- `RPCError` for the elapsed wall-clock deadline. -/
  | timedOut
  /-- `RPCError` for the missing heartbeat signal. -/
  | heartbeatDead
  /-- `poll` reported data: the loop breaks and the reply is read. -/
  | replyReady (atTime : Nat)
  deriving Repr, DecidableEq

/-- The bounded poll interval passed to `socket.poll`, in milliseconds. -/
def pollTimeoutMs : Nat := 500

/-- The `while True` loop of `_receive_reply`: the deadline check, then the
heartbeat check, then the poll, in that order, over a finite trace of
iteration observations (`none` if the trace runs out with the loop still
spinning). -/
def receiveReplyLoop (timeoutTime : Nat) : List PollObs → Option ReplyOutcome
  | [] => none
  | o :: rest =>
      if o.now > timeoutTime then some ReplyOutcome.timedOut
      else if o.heartbeatError then some ReplyOutcome.heartbeatDead
      else if o.ready then some (ReplyOutcome.replyReady o.now)
      else receiveReplyLoop timeoutTime rest

/-- `ZMQClient._receive_reply`: `timeout_time = time.time() + self.timeout_sec`
is fixed from the clock reading at entry, then the loop polls. -/
def receiveReply (startTime timeoutSec : Nat) (trace : List PollObs) :
    Option ReplyOutcome :=
  receiveReplyLoop (startTime + timeoutSec) trace

/-- The heartbeat client constructed by `enable_heartbeat`; the heartbeat
module's internals are not needed here, so we record the constructor
arguments (`heartbeat.ZMQClient(heartbeat_addr, heartbeat_interval_sec,
max_missed=3, ...)`) together with a fresh object id. -/
structure HBClient where
  id : Nat
  addr : String
  intervalSec : Nat
  maxMissed : Nat
  deriving Repr, DecidableEq

/-- The mutable state of a `ZMQClient`.  Sockets are modelled as
`(fresh id, connected address)` pairs drawn from the `nextId` counter;
closing a socket or stopping a heartbeat client records its id. -/
structure ZMQClientState where
  nextId : Nat
  rpc_addr : String
  timeout_sec : Nat
  heartbeat_error : Bool
  socket : Nat × String
  /-- `interrupt_socket` and `interrupt_addr`, both set by `enable_interrupt`. -/
  interrupt : Option (Nat × String)
  /-- `heartbeat_client` (holding `heartbeat_addr` / `heartbeat_interval_sec`,
  both set by `enable_heartbeat`). -/
  hb : Option HBClient
  closedSockets : List Nat
  stoppedHeartbeats : List Nat
  deriving Repr, DecidableEq

/-- `ZMQClient._connect`: create a fresh REQ socket connected to `rpc_addr`. -/
def connect (st : ZMQClientState) : ZMQClientState :=
  { st with socket := (st.nextId, st.rpc_addr), nextId := st.nextId + 1 }

/-- `ZMQClient.__init__`: record the address and timeout, clear the heartbeat
error, leave interrupt and heartbeat disabled, and connect. -/
def zmqInit (rpc_addr : String) (timeout_sec : Nat) : ZMQClientState :=
  { nextId := 1, rpc_addr := rpc_addr, timeout_sec := timeout_sec,
    heartbeat_error := false, socket := (0, rpc_addr), interrupt := none,
    hb := none, closedSockets := [], stoppedHeartbeats := [] }

/-- `ZMQClient.enable_interrupt`: fresh PUSH socket connected to
`interrupt_addr`, which is also stored. -/
def enable_interrupt (st : ZMQClientState) (interrupt_addr : String) :
    ZMQClientState :=
  { st with interrupt := some (st.nextId, interrupt_addr), nextId := st.nextId + 1 }

/-- `ZMQClient.enable_heartbeat`: store the address and interval and build a
heartbeat client with `max_missed=3`. -/
def enable_heartbeat (st : ZMQClientState) (heartbeat_addr : String)
    (heartbeat_interval_sec : Nat) : ZMQClientState :=
  { st with hb := some ⟨st.nextId, heartbeat_addr, heartbeat_interval_sec, 3⟩,
            nextId := st.nextId + 1 }

/-- `ZMQClient.reconnect`: close and recreate the RPC socket, then, when
present, close and recreate the interrupt socket at the stored
`interrupt_addr`, and stop the heartbeat client, clear `heartbeat_error`,
and recreate it at the stored address and interval. -/
def reconnect (st : ZMQClientState) : ZMQClientState :=
  let st1 := connect { st with closedSockets := st.closedSockets ++ [st.socket.1] }
  let st2 :=
    match st1.interrupt with
    | none => st1
    | some (iid, addr) =>
        enable_interrupt { st1 with closedSockets := st1.closedSockets ++ [iid] } addr
  match st2.hb with
  | none => st2
  | some hbc =>
      enable_heartbeat
        { st2 with stoppedHeartbeats := st2.stoppedHeartbeats ++ [hbc.id],
                   heartbeat_error := false }
        hbc.addr hbc.intervalSec

end RPCClientModel

namespace ProxyModel

open MessageManagerModel (lookupKey eraseKey setKey appendKey ensureKey)

/-- A proxy function generated by `_rich_proxy_function`: its name, the
remote qualified name it closes over, and the doc string.  The argspec only
shapes the generated signature text, not the call behaviour. -/
structure ProxyFunc where
  name : String
  qualname : String
  doc : String
  deriving Repr, DecidableEq

/-- A class attribute of a generated `NewNamespace` class: a proxy function
(a non-data descriptor) or a `property` built from an accessor pair (a data
descriptor). -/
inductive Member
  | func (f : ProxyFunc)
  | prop (getter setter : Option ProxyFunc)
  deriving Repr, DecidableEq

/-- A value held in a namespace instance's `__dict__` or produced by
attribute access. -/
inductive Value
  /-- a child namespace object, by heap id. -/
  | child (oid : Nat)
  /-- a bound proxy function found on the class. -/
  | boundMethod (f : ProxyFunc)
  /-- the result of invoking a property getter (a remote call). -/
  | remoteResult (f : ProxyFunc)
  /-- the `_functions_proxied` set stored on the root. -/
  | funcsProxied (names : List String)
  /-- an opaque client-side value assigned by a caller. -/
  | raw (tag : String)
  deriving Repr

/-- One `ClientNamespace` instance: its generated class (name and class
attributes), its instance `__dict__`, and the `__attrs_locked` flag. -/
structure NSObj where
  clsName : String
  clsAttrs : List (String × Member)
  instAttrs : List (String × Value)
  attrsLocked : Bool
  deriving Repr

/-- Python exceptions surfaced by the proxy builder and by namespace
attribute assignment. -/
inductive PError
  /-- `RPCError`: attribute not known, state cannot be communicated. -/
  | rpcUnknownAttribute (name : String)
  /-- `RPCError`: attribute is not a property value. -/
  | rpcNotProperty (name : String)
  /-- `AttributeError` from assigning a property that has no setter. -/
  | cantSetAttribute (name : String)
  /-- dict `KeyError` (e.g. `client_namespaces[()]` on an empty catalog). -/
  | keyError
  /-- marker for walking through a non-namespace attribute during tree
  assembly; unreachable for catalogs whose path segments do not collide
  with function or property names. -/
  | nonNamespaceOnPath (name : String)
  deriving Repr, DecidableEq

/-- Python attribute lookup `getattr(obj, name)` on a `ClientNamespace`
instance: class data descriptors (properties) first — a readable property
invokes its getter, a remote call we record as an event; then the instance
`__dict__`; then class functions.  `none` models `AttributeError`. -/
def getattrComputation (obj : NSObj) (name : String) :
    Option Value × List String :=
  match lookupKey obj.clsAttrs name with
  | some (Member.prop getter _) =>
      match getter with
      | some g => (some (Value.remoteResult g), [g.qualname])
      | none => (none, [])
  | some (Member.func f) =>
      match lookupKey obj.instAttrs name with
      | some v => (some v, [])
      | none => (some (Value.boundMethod f), [])
  | none =>
      match lookupKey obj.instAttrs name with
      | some v => (some v, [])
      | none => (none, [])

/-- `ClientNamespace.__setattr__`: when `__attrs_locked` is set, reject names
that `hasattr(self, name)` does not know, and names that are not class
properties; then delegate to `object.__setattr__`, which routes a property
name to its setter (a remote call, recorded as an event; `AttributeError`
when the property has no setter) and stores anything else in the instance
`__dict__`.  The `hasattr` probe evaluates a readable property's getter,
which is itself a remote call. -/
def nsSetattr (obj : NSObj) (name : String) (v : Value) :
    Except PError (NSObj × List String) :=
  let check : Except PError (List String) :=
    if obj.attrsLocked then
      let (found, evs) := getattrComputation obj name
      if found.isSome then
        match lookupKey obj.clsAttrs name with
        | some (Member.prop _ _) => Except.ok evs
        | _ => Except.error (PError.rpcNotProperty name)
      else Except.error (PError.rpcUnknownAttribute name)
    else Except.ok []
  match check with
  | Except.error e => Except.error e
  | Except.ok evs =>
      match lookupKey obj.clsAttrs name with
      | some (Member.prop _ (some s)) => Except.ok (obj, evs ++ [s.qualname])
      | some (Member.prop _ none) => Except.error (PError.cantSetAttribute name)
      | _ => Except.ok ({ obj with instAttrs := setKey obj.instAttrs name v }, evs)

/-- The heap of namespace instances, keyed by object id. -/
abbrev Heap := List (Nat × NSObj)

/-- `client_namespaces`: dotted-path prefix (as segments) to object id. -/
abbrev CNS := List (List String × Nat)

/-- `ClientNamespace._lock_attrs`: set `__attrs_locked`, then recurse into
every instance-dict value that itself has `_lock_attrs` (child namespaces).
The `fuel` bounds the recursion depth (the built trees are finite and
acyclic). -/
def lockAttrs : Nat → Heap → Nat → Heap
  | 0, heap, _ => heap
  | fuel + 1, heap, oid =>
      match lookupKey heap oid with
      | none => heap
      | some obj =>
          let heap1 := setKey heap oid { obj with attrsLocked := true }
          obj.instAttrs.foldl
            (fun h kv =>
              match kv.2 with
              | Value.child cid => lockAttrs fuel h cid
              | _ => h)
            heap1

/-- An entry of the `__DESCRIBE__` catalog: `(qualname, doc, argspec)`; the
argspec is carried by `ProxyFunc` construction only through the doc here. -/
structure Descriptor where
  qualname : String
  doc : String
  deriving Repr, DecidableEq

/-- `str.split('.')` over the character list (structurally recursive so that
concrete catalogs evaluate inside the kernel). -/
def splitDotsAux : List Char → List Char → List String
  | [], acc => [String.mk acc.reverse]
  | c :: rest, acc =>
      if c = '.' then String.mk acc.reverse :: splitDotsAux rest []
      else splitDotsAux rest (c :: acc)

/-- `qualname.split('.')`. -/
def splitDots (q : String) : List String := splitDotsAux q.data []

/-- `name.startswith(prefix)`. -/
def strStartsWith (s p : String) : Bool := p.data.isPrefixOf s.data

/-- `name[n:]`. -/
def strDrop (s : String) (n : Nat) : String := String.mk (s.data.drop n)

/-- `*parents, name = qualname.split('.')`. -/
def splitQualname (q : String) : List String × String :=
  match (splitDots q).reverse with
  | [] => ([], "")
  | name :: revParents => (revParents.reverse, name)

/-- `for i in range(len(parents)): server_namespaces[parents[:i]]` — make
sure intermediate (possibly empty) namespaces are in the dict. -/
def ensurePrefixes (sns : List (List String × List (String × Descriptor)))
    (parents : List String) : List (List String × List (String × Descriptor)) :=
  (List.range parents.length).foldl (fun d i => ensureKey d (parents.take i)) sns

/-- The grouping loop of `proxy_namespace`: group catalog entries by parent
path into `server_namespaces` and collect `functions_proxied` (a set,
modelled as a deduplicated list). -/
def groupByNamespace (catalog : List Descriptor) :
    List (List String × List (String × Descriptor)) × List String :=
  catalog.foldl
    (fun acc d =>
      let (parents, name) := splitQualname d.qualname
      let fp := if d.qualname ∈ acc.2 then acc.2 else acc.2 ++ [d.qualname]
      (ensurePrefixes (appendKey acc.1 parents (name, d)) parents, fp))
    ([], [])

/-- Accessor pairs under construction (`_accessor_pair`): property name to
`(getter, setter)`. -/
abbrev Accessors := List (String × (Option ProxyFunc × Option ProxyFunc))

/-- `accessors[name[4:]].getter = client_func` over a
`defaultdict(_accessor_pair)`. -/
def accessorSetGetter (acc : Accessors) (pname : String) (f : ProxyFunc) :
    Accessors :=
  match lookupKey acc pname with
  | some gs => setKey acc pname (some f, gs.2)
  | none => acc ++ [(pname, (some f, none))]

/-- `accessors[name[4:]].setter = client_func`. -/
def accessorSetSetter (acc : Accessors) (pname : String) (f : ProxyFunc) :
    Accessors :=
  match lookupKey acc pname with
  | some gs => setKey acc pname (gs.1, some f)
  | none => acc ++ [(pname, (none, some f))]

/-- The class-population loop of `proxy_namespace`: create a proxy function
per description, rename `get_X`/`set_X` attributes to `_get_X`/`_set_X`
while collecting accessor pairs, then add one `property` per accessor pair.
Later attributes overwrite earlier ones of the same name, as `setattr`
does. -/
def buildClassAttrs (fdescs : List (String × Descriptor)) :
    List (String × Member) :=
  let pass1 :=
    fdescs.foldl
      (fun (acc : List (String × Member) × Accessors) nd =>
        let (name, d) := nd
        let f : ProxyFunc := ⟨name, d.qualname, d.doc⟩
        if strStartsWith name "get_" then
          (setKey acc.1 ("_" ++ name) (Member.func f),
           accessorSetGetter acc.2 (strDrop name 4) f)
        else if strStartsWith name "set_" then
          (setKey acc.1 ("_" ++ name) (Member.func f),
           accessorSetSetter acc.2 (strDrop name 4) f)
        else (setKey acc.1 name (Member.func f), acc.2))
      ([], [])
  pass1.2.foldl
    (fun attrs pgs => setKey attrs pgs.1 (Member.prop pgs.2.1 pgs.2.2))
    pass1.1

/-- The instantiation loop of `proxy_namespace`: for every entry of
`server_namespaces`, in insertion order, build a `NewNamespace` class
(named after the last path segment, or `root`) and one unlocked instance of
it, recorded in `client_namespaces`. -/
def instantiate (sns : List (List String × List (String × Descriptor))) :
    Heap × Nat × CNS :=
  sns.foldl
    (fun (acc : Heap × Nat × CNS) pfd =>
      let (parents, fdescs) := pfd
      let clsName :=
        match parents.reverse with
        | [] => "root"
        | p :: _ => p
      let obj : NSObj := ⟨clsName, buildClassAttrs fdescs, [], false⟩
      (acc.1 ++ [(acc.2.1, obj)], acc.2.1 + 1, acc.2.2 ++ [(parents, acc.2.1)]))
    ([], 0, [])

/-- The inner walk of the tree-assembly loop: follow `parents` from the root
by `getattr`; at the first `AttributeError`, pop the namespace built for
that prefix from `client_namespaces`, attach it with `setattr`, and continue
from it.  `i` is the number of segments already walked. -/
def walkAttach : Heap → CNS → List String → Nat →
    List String → Nat → List String → Except PError (Heap × CNS × List String)
  | heap, cns, evs, _, _, _, [] => Except.ok (heap, cns, evs)
  | heap, cns, evs, cur, full, i, element :: rest =>
      match lookupKey heap cur with
      | none => Except.error PError.keyError
      | some obj =>
          match getattrComputation obj element with
          | (some (Value.child oid), gevs) =>
              walkAttach heap cns (evs ++ gevs) oid full (i + 1) rest
          | (some _, _) => Except.error (PError.nonNamespaceOnPath element)
          | (none, gevs) =>
              match lookupKey cns (full.take (i + 1)) with
              | none => Except.error PError.keyError
              | some newId =>
                  let cns1 := eraseKey cns (full.take (i + 1))
                  match nsSetattr obj element (Value.child newId) with
                  | Except.error e => Except.error e
                  | Except.ok (obj1, sevs) =>
                      walkAttach (setKey heap cur obj1) cns1
                        (evs ++ gevs ++ sevs) newId full (i + 1) rest

/-- The outer tree-assembly loop: for every key of the
`client_namespaces` snapshot, skip it if already popped, otherwise walk and
attach from the root. -/
def assemble : Heap → CNS → List String → List (List String) → Nat →
    Except PError (Heap × CNS × List String)
  | heap, cns, evs, [], _ => Except.ok (heap, cns, evs)
  | heap, cns, evs, parents :: restKeys, rootId =>
      match lookupKey cns parents with
      | none => assemble heap cns evs restKeys rootId
      | some _ =>
          match walkAttach heap cns evs rootId parents 0 parents with
          | Except.error e => Except.error e
          | Except.ok (h1, c1, e1) => assemble h1 c1 e1 restKeys rootId

/-- The result of `proxy_namespace`: the heap of namespace instances, the
root object id, the `_functions_proxied` set, and the remote calls performed
while building (none, for ordinary catalogs). -/
structure BuiltNamespace where
  heap : Heap
  rootId : Nat
  functionsProxied : List String
  events : List String
  deriving Repr

/-- `RPCClient.proxy_namespace` over an already-received `__DESCRIBE__`
catalog: group by namespace, build classes and instances, assemble the tree
from the root, and store `_functions_proxied` on the root. -/
def proxy_namespace (catalog : List Descriptor) :
    Except PError BuiltNamespace :=
  let (sns, fp) := groupByNamespace catalog
  let (heap, _, cns) := instantiate sns
  match lookupKey cns ([] : List String) with
  | none => Except.error PError.keyError
  | some rootId =>
      match assemble heap cns [] (cns.map Prod.fst) rootId with
      | Except.error e => Except.error e
      | Except.ok (heap1, _, evs) =>
          match lookupKey heap1 rootId with
          | none => Except.error PError.keyError
          | some robj =>
              match nsSetattr robj "_functions_proxied" (Value.funcsProxied fp) with
              | Except.error e => Except.error e
              | Except.ok (robj1, sevs) =>
                  Except.ok ⟨setKey heap1 rootId robj1, rootId, fp, evs ++ sevs⟩

/-- Follow child links from the root along a dotted path. -/
def resolvePath (heap : Heap) : Nat → List String → Option Nat
  | oid, [] => some oid
  | oid, seg :: rest =>
      match lookupKey heap oid with
      | none => none
      | some obj =>
          match getattrComputation obj seg with
          | (some (Value.child cid), _) => resolvePath heap cid rest
          | _ => none

/-- Whether `proxy_namespace` completed without raising. -/
def buildSucceeds (catalog : List Descriptor) : Bool :=
  match proxy_namespace catalog with
  | Except.ok _ => true
  | Except.error _ => false

/-- The class attribute bound under `name` at the given path of a built
namespace. -/
def builtClassAttr (catalog : List Descriptor) (path : List String)
    (name : String) : Option Member :=
  match proxy_namespace catalog with
  | Except.error _ => none
  | Except.ok b =>
      match resolvePath b.heap b.rootId path with
      | none => none
      | some oid =>
          match lookupKey b.heap oid with
          | none => none
          | some obj => lookupKey obj.clsAttrs name

/-- The node object at a path of a built namespace, optionally after running
`root._lock_attrs()` first. -/
def builtNodeAt (catalog : List Descriptor) (lock : Bool) (path : List String) :
    Option NSObj :=
  match proxy_namespace catalog with
  | Except.error _ => none
  | Except.ok b =>
      let heap := if lock then lockAttrs (b.heap.length + 1) b.heap b.rootId else b.heap
      match resolvePath heap b.rootId path with
      | none => none
      | some oid => lookupKey heap oid

/-- The error raised by an attribute assignment, `none` when it succeeds. -/
def setattrOutcome (obj : NSObj) (name : String) (v : Value) : Option PError :=
  match nsSetattr obj name v with
  | Except.ok _ => none
  | Except.error e => some e

/-- The remote calls performed by a successful attribute assignment. -/
def setattrEvents (obj : NSObj) (name : String) (v : Value) :
    Option (List String) :=
  match nsSetattr obj name v with
  | Except.ok (_, evs) => some evs
  | Except.error _ => none

/-- Assignment outcome at a path of a freshly built (`lock = false`) or
explicitly locked (`lock = true`) namespace tree. -/
def assignOutcomeAt (catalog : List Descriptor) (lock : Bool)
    (path : List String) (name : String) (v : Value) : Option (Option PError) :=
  match builtNodeAt catalog lock path with
  | none => none
  | some obj => some (setattrOutcome obj name v)

end ProxyModel

namespace MessageManagerModel

/-- C1: the first response with key `K` invokes only the first standalone
callback, but the remaining callback is re-queued under the *response* string
(`self.pending_standalone_responses[response] = remaining_callbacks`), not
under the response key; hence a second response whose derived key is `K`
matches nothing and the second callback is never invoked.  Concretely: key
function constantly `"K"`, callbacks `[1, 2]` queued under `"K"`, two
responses `"R"`: callback `1` fires, callback `2` ends up queued under `"R"`
and the second response is handled as unexpected. -/
theorem standalone_requeue_uses_response_not_key :
    runLoop (fun _ => "K") ⟨[], [("K", [1, 2])]⟩ ["R", "R"] =
      RunResult.finished ⟨[], [("R", [2])]⟩
        [Event.invoke 1 "R", Event.unexpected "R" "K"] := by decide

/-- C2: a grouped callback registered with `onetime=false` via `send_message`
does fire on the first matching response, but the re-queue line evaluates
`self.pending_responses[response_key]` — an attribute that does not exist —
so the receive loop dies with `AttributeError` instead of re-queuing the
callback. -/
theorem grouped_requeue_raises_attribute_error :
    send_message ⟨[], []⟩ "m" (some "K") (some 1) false true =
      Except.ok (⟨[("K", [(1, false)])], []⟩, ["m"]) ∧
    handleResponse (fun _ => "K") ⟨[("K", [(1, false)])], []⟩ "R" =
      StepResult.crashed MMError.attributeError [Event.invoke 1 "R"] :=
  ⟨rfl, by decide⟩

/-- C3: `send_message` with a response key and callback but
`onetime=false, coalesce=false` fails the `assert(onetime or coalesce)`
synchronously: no state change and no transport send happen, for every
starting state, message, key and callback. -/
theorem send_message_rejects_standalone_persistent
    (st : MMState) (message key : String) (cb : Cb) :
    send_message st message (some key) (some cb) false false =
      Except.error MMError.assertionError := rfl

/-- C8: a response whose derived key is in neither pending table invokes only
the unexpected-response handler, leaves the state unchanged, and the receive
loop proceeds to the next iteration rather than terminating. -/
theorem unmatched_response_is_handled_and_loop_continues
    (keyOf : String → String) (st : MMState) (r : String)
    (h1 : lookupKey st.grouped (keyOf r) = none)
    (h2 : lookupKey st.standalone (keyOf r) = none) :
    handleResponse keyOf st r =
      StepResult.ok st [Event.unexpected r (keyOf r)] ∧
    ∀ rest, runLoop keyOf st (r :: rest) =
      prependEvents [Event.unexpected r (keyOf r)] (runLoop keyOf st rest) := by
  have hmain : handleResponse keyOf st r =
      StepResult.ok st [Event.unexpected r (keyOf r)] := by
    simp [handleResponse, h1, h2]
  refine ⟨hmain, fun rest => ?_⟩
  simp only [runLoop, hmain]
  cases runLoop keyOf st rest <;> simp [prependEvents]

/-- Witness for C8 at a concrete input: identity key function, empty tables,
response `"X"`. -/
theorem unmatched_response_witness :
    handleResponse (fun r => r) ⟨[], []⟩ "X" =
      StepResult.ok ⟨[], []⟩ [Event.unexpected "X" "X"] :=
  (unmatched_response_is_handled_and_loop_continues
    (fun r => r) ⟨[], []⟩ "X" rfl rfl).1

/-- C4: the Leica key derivation takes the first six characters of a
sentinel-prefixed response and characters `[0:2] + [3:5]` of any other
response; concretely `"$83023X"` keys to `"$83023"` and `"1H001"` keys to
`"1H01"`. -/
theorem leica_response_key_spec :
    (∀ c r, c = '$' →
      leicaGenerateResponseKey (c :: r) = some ((c :: r).take 6)) ∧
    (∀ c r, c ≠ '$' →
      leicaGenerateResponseKey (c :: r) =
        some ((c :: r).take 2 ++ ((c :: r).drop 3).take 2)) ∧
    leicaGenerateResponseKey "$83023X".data = some "$83023".data ∧
    leicaGenerateResponseKey "1H001".data = some "1H01".data := by
  refine ⟨fun c r hc => ?_, fun c r hc => ?_, by decide, by decide⟩
  · simp [leicaGenerateResponseKey, hc]
  · simp [leicaGenerateResponseKey, hc]

/-- Witness for C4 at concrete inputs, discharging the hypotheses of both
universally quantified conjuncts. -/
theorem leica_response_key_witness :
    leicaGenerateResponseKey ('$' :: "83023X".data) =
      some (('$' :: "83023X".data).take 6) ∧
    leicaGenerateResponseKey ('1' :: "H001".data) =
      some (('1' :: "H001".data).take 2 ++ (('1' :: "H001".data).drop 3).take 2) :=
  ⟨leica_response_key_spec.1 '$' "83023X".data rfl,
   leica_response_key_spec.2.1 '1' "H001".data (by decide)⟩

end MessageManagerModel

namespace RPCClientModel

/-- Iterations whose deadline, heartbeat and poll checks all fail are skipped
by the polling loop. -/
theorem receiveReplyLoop_skip (timeoutTime : Nat) (pre : List PollObs)
    (hpre : ∀ p ∈ pre, p.now ≤ timeoutTime ∧ p.heartbeatError = false ∧
      p.ready = false) (l : List PollObs) :
    receiveReplyLoop timeoutTime (pre ++ l) = receiveReplyLoop timeoutTime l := by
  induction pre with
  | nil => rfl
  | cons p ps ih =>
      have hp := hpre p (List.mem_cons_self p ps)
      simp only [List.cons_append, receiveReplyLoop, hp.2.1, hp.2.2,
        if_neg (Nat.not_lt.mpr hp.1), if_false]
      exact ih fun q hq => hpre q (List.mem_cons_of_mem p hq)

/-- C6: with `timeout_time` fixed at entry, the polling loop raises the
timeout error on the first iteration whose clock reading exceeds the
deadline, and raises the liveness error on the first iteration whose
heartbeat flag is set while the deadline has not yet passed — immediately,
however far that clock reading is from the deadline — with the poll interval
bounded at 500 ms. -/
theorem receive_reply_deadline_and_liveness
    (startTime timeoutSec : Nat) (pre : List PollObs) (o : PollObs)
    (rest : List PollObs)
    (hpre : ∀ p ∈ pre, p.now ≤ startTime + timeoutSec ∧
      p.heartbeatError = false ∧ p.ready = false) :
    (o.now ≤ startTime + timeoutSec → o.heartbeatError = true →
      receiveReply startTime timeoutSec (pre ++ o :: rest) =
        some ReplyOutcome.heartbeatDead) ∧
    (startTime + timeoutSec < o.now →
      receiveReply startTime timeoutSec (pre ++ o :: rest) =
        some ReplyOutcome.timedOut) ∧
    pollTimeoutMs = 500 := by
  rw [receiveReply, receiveReplyLoop_skip (startTime + timeoutSec) pre hpre]
  refine ⟨fun hle hhb => ?_, fun hgt => ?_, rfl⟩
  · simp only [receiveReplyLoop, hhb, if_neg (Nat.not_lt.mpr hle), if_true]
  · simp only [receiveReplyLoop, if_pos hgt]

/-- Witness for C6: deadline 10000 ms, one uneventful poll at 100 ms, then a
poll at 600 ms (far below the deadline) that sees the heartbeat flag: the
liveness error is raised there. -/
theorem receive_reply_liveness_witness :
    receiveReply 0 10000 [⟨100, false, false⟩, ⟨600, true, false⟩] =
      some ReplyOutcome.heartbeatDead :=
  (receive_reply_deadline_and_liveness 0 10000 [⟨100, false, false⟩]
    ⟨600, true, false⟩ [] (by decide)).1 (by decide) rfl

/-- C9: `reconnect` keeps `rpc_addr`, `timeout_sec`, the interrupt address
and the heartbeat address/interval as configured before the call, while the
RPC socket is closed and replaced by a fresh socket connected to `rpc_addr`,
an enabled interrupt socket is closed and replaced at the stored interrupt
address, a disabled one stays disabled, and an enabled heartbeat client is
stopped and replaced at the stored address, interval and `max_missed=3`. -/
theorem reconnect_preserves_config_and_recreates_channels
    (st : ZMQClientState) (hsock : st.socket.1 < st.nextId) :
    (reconnect st).rpc_addr = st.rpc_addr ∧
    (reconnect st).timeout_sec = st.timeout_sec ∧
    (reconnect st).socket.2 = st.rpc_addr ∧
    (reconnect st).socket.1 ≠ st.socket.1 ∧
    st.socket.1 ∈ (reconnect st).closedSockets ∧
    (st.interrupt = none → (reconnect st).interrupt = none) ∧
    (∀ iid ia, st.interrupt = some (iid, ia) →
      iid ∈ (reconnect st).closedSockets ∧
      ∃ j, (reconnect st).interrupt = some (j, ia)) ∧
    (st.hb = none → (reconnect st).hb = none) ∧
    (∀ h : HBClient, st.hb = some h →
      h.id ∈ (reconnect st).stoppedHeartbeats ∧
      ∃ j, (reconnect st).hb = some ⟨j, h.addr, h.intervalSec, 3⟩) := by
  cases hI : st.interrupt with
  | none =>
      cases hH : st.hb <;>
        simp [reconnect, connect, enable_interrupt, enable_heartbeat, hI, hH] <;>
        omega
  | some p =>
      obtain ⟨iid0, ia0⟩ := p
      cases hH : st.hb <;>
        simp [reconnect, connect, enable_interrupt, enable_heartbeat, hI, hH] <;>
        omega

/-- Witness for C9: a client with interrupt and heartbeat enabled; after
`reconnect` the addresses and interval are unchanged, the old sockets are
closed, and the heartbeat client is stopped and rebuilt. -/
theorem reconnect_witness :
    (let st := enable_heartbeat
        (enable_interrupt (zmqInit "tcp://rpc" 10) "tcp://intr") "tcp://hb" 2
     (reconnect st).rpc_addr = st.rpc_addr ∧
     (reconnect st).timeout_sec = st.timeout_sec ∧
     (reconnect st).socket.2 = st.rpc_addr ∧
     (reconnect st).socket.1 ≠ st.socket.1 ∧
     st.socket.1 ∈ (reconnect st).closedSockets) :=
  let st := enable_heartbeat
      (enable_interrupt (zmqInit "tcp://rpc" 10) "tcp://intr") "tcp://hb" 2
  ⟨(reconnect_preserves_config_and_recreates_channels st (by decide)).1,
   (reconnect_preserves_config_and_recreates_channels st (by decide)).2.1,
   (reconnect_preserves_config_and_recreates_channels st (by decide)).2.2.1,
   (reconnect_preserves_config_and_recreates_channels st (by decide)).2.2.2.1,
   (reconnect_preserves_config_and_recreates_channels st (by decide)).2.2.2.2.1⟩

/-- C10: whenever the heartbeat channel is enabled, `reconnect` resets
`heartbeat_error` to `False`, whatever its value before the call, so a call
issued right after `reconnect` is not short-circuited by a stale liveness
error. -/
theorem reconnect_clears_heartbeat_error
    (st : ZMQClientState) (h : HBClient) (hh : st.hb = some h) :
    (reconnect st).heartbeat_error = false := by
  cases hI : st.interrupt <;>
    simp [reconnect, connect, enable_interrupt, enable_heartbeat, hI, hh]

/-- Witness for C10: a heartbeat-enabled client already flagged dead
(`heartbeat_error = true`); after `reconnect` the flag is `false`. -/
theorem reconnect_clears_heartbeat_error_witness :
    (reconnect { enable_heartbeat (zmqInit "tcp://rpc" 10) "tcp://hb" 2 with
        heartbeat_error := true }).heartbeat_error = false :=
  reconnect_clears_heartbeat_error _ ⟨1, "tcp://hb", 2, 3⟩ rfl

end RPCClientModel

namespace ProxyModel

/-- C5 counterexample: `proxy_namespace` never calls `_lock_attrs`, so after
construction completes the namespace nodes are unlocked and assigning the
unknown attribute `y` on `a.b` (built from descriptors `a.b.get_x`,
`a.b.set_x`) succeeds silently instead of raising a write-protection
violation. -/
theorem write_protection_not_active_after_build :
    assignOutcomeAt [⟨"a.b.get_x", "doc1"⟩, ⟨"a.b.set_x", "doc2"⟩] false
      ["a", "b"] "y" (Value.raw "5") = some none ∧
    (builtNodeAt [⟨"a.b.get_x", "doc1"⟩, ⟨"a.b.set_x", "doc2"⟩] false
      ["a", "b"]).map (fun o => o.attrsLocked) = some false := by decide

/-- C5 amended: write-protection is enforced only once `_lock_attrs()` is
invoked on the built tree — `proxy_namespace` itself never invokes it.
After locking, `a.b.y = 5` raises the "not known" `RPCError` while
`a.b.x = 5` succeeds as a property write, reaching the remote `a.b.set_x`
(after the `hasattr` probe reads `a.b.get_x`); before locking, the same
`a.b.y = 5` succeeds silently. -/
theorem write_protection_only_after_lock_attrs :
    assignOutcomeAt [⟨"a.b.get_x", "doc1"⟩, ⟨"a.b.set_x", "doc2"⟩] true
      ["a", "b"] "y" (Value.raw "5") =
      some (some (PError.rpcUnknownAttribute "y")) ∧
    (builtNodeAt [⟨"a.b.get_x", "doc1"⟩, ⟨"a.b.set_x", "doc2"⟩] true
      ["a", "b"]).map (fun o => setattrEvents o "x" (Value.raw "5")) =
      some (some ["a.b.get_x", "a.b.set_x"]) ∧
    assignOutcomeAt [⟨"a.b.get_x", "doc1"⟩, ⟨"a.b.set_x", "doc2"⟩] false
      ["a", "b"] "y" (Value.raw "5") = some none := by decide

/-- C7 counterexample: a catalog with two descriptors sharing the qualified
name `a.b.get_x` is not rejected — `proxy_namespace` completes without any
configuration error. -/
theorem duplicate_qualnames_not_rejected :
    buildSucceeds [⟨"a.b.get_x", "doc1"⟩, ⟨"a.b.get_x", "doc2"⟩] = true := by
  decide

/-- C7 amended: duplicate qualified names in the catalog are accepted
silently; the build completes and the later duplicate's proxy function
overwrites the earlier one under the same class attribute. -/
theorem duplicate_qualnames_build_last_wins :
    buildSucceeds [⟨"a.b.get_x", "doc1"⟩, ⟨"a.b.get_x", "doc2"⟩] = true ∧
    builtClassAttr [⟨"a.b.get_x", "doc1"⟩, ⟨"a.b.get_x", "doc2"⟩]
      ["a", "b"] "_get_x" =
      some (Member.func ⟨"get_x", "a.b.get_x", "doc2"⟩) := by decide

end ProxyModel
